import Mathlib

/-!
Formal model of the FitCloud Slack cost-agent handlers.

This file gives a shallow embedding, in Lean 4, of the pure decision logic of
the repository's Python handlers:

* `smart_date_correction`, `validate_date_logic`, `determine_api_path`,
  `process_fitcloud_response`, `summarize_cost_items_table`,
  `summarize_invoice_items`, `summarize_tag_items_table`
  from `agent1-actions/fitcloudagent1_lambda.py`;
* the report branch of `lambda_handler` from `supervisor/fitcloudSuperVisor.py`.

Modelling conventions:
* Parameter-bag values are strings (the Python code passes every value through
  `str(...)` before inspecting it).  Presence of a key is an `Option`.
* The wall clock (`get_current_date_info`, KST) is an explicit `Clock` argument;
  the Python functions read it once per call.
* `datetime.strptime(s, '%Y%m%d')` succeeds exactly on 8-character digit
  strings whose month is 01..12 and whose day is a real day of that month in
  the proleptic Gregorian calendar with years 1..9999 (CPython's regexp for
  `%Y%m%d` forces the 4+2+2 split on an all-digit 8-character string);
  `validYMD` encodes that.
* `date`/`timedelta` arithmetic is embedded through CPython's own ordinal
  algorithms (`_days_before_year`, `_ymd2ord`, `_ord2ymd`), including the
  `OverflowError` raised when a result leaves ordinals 1..3652059.
* Monetary amounts are modelled as rationals; Python floats carry rounding
  that no claim here depends on.
-/

/-- KST reference clock, the relevant fields of `get_current_date_info` ("now"
in Asia/Seoul: year, month, day). -/
structure Clock where
  year : Nat
  month : Nat
  day : Nat
deriving DecidableEq, Repr

/-- A parameter bag: the keys of the Python `params` dict that the date logic
reads.  `none` models an absent key.  `fromv`/`tov` stand for the keys
`'from'`/`'to'` (`from` is a Lean keyword). -/
structure Params where
  fromv : Option String := none
  tov : Option String := none
  billingPeriod : Option String := none
  accountId : Option String := none
  beginDate : Option String := none
  endDate : Option String := none
deriving DecidableEq, Repr

/-- First `n` characters of a string (Python `s[:n]`). -/
def sTake (s : String) (n : Nat) : String := ⟨s.data.take n⟩

/-- All characters of a string from position `n` on (Python `s[n:]`). -/
def sDrop (s : String) (n : Nat) : String := ⟨s.data.drop n⟩

/-- Numeric value of a list of decimal digit characters. -/
def digitsToNat (l : List Char) : Nat := l.foldl (fun a c => a * 10 + (c.toNat - 48)) 0

/-- Python `s.isdigit()` for ASCII data: every character is a decimal digit.
(`isdigit` is true on further Unicode digit classes that never occur here.) -/
def allDigits (s : String) : Bool := s.data.all Char.isDigit

/-- Python `not s.strip()`: the string is empty or all whitespace. -/
def isBlank (s : String) : Bool := s.data.all Char.isWhitespace

/-- Python `int(s)` restricted to plain digit strings, as used on the
4-character year slices below.  `int` also accepts a sign or surrounding
whitespace, but on a 4-character slice such values are at most `999 < 2020`,
so they behave exactly like the `none` (unchanged) case in every use site. -/
def digitsOnlyNat (s : String) : Option Nat :=
  if s.data ≠ [] ∧ allDigits s = true then some (digitsToNat s.data) else none

/-- Python `s.zfill(2)`. -/
def zfill2 (s : String) : String :=
  if s.length = 0 then "00" else if s.length = 1 then "0" ++ s else s

/-- Python f-string `f"{n:02d}"` for a nonnegative number. -/
def pad2 (n : Nat) : String := if n < 10 then "0" ++ Nat.repr n else Nat.repr n

/-- Gregorian leap-year rule (CPython `datetime._is_leap`). -/
def isLeap (y : Nat) : Bool := (y % 4 = 0 && y % 100 ≠ 0) || y % 400 = 0

/-- Number of days of month `m` of year `y` (CPython `datetime._days_in_month`). -/
def daysInMonth (y m : Nat) : Nat :=
  if m = 1 ∨ m = 3 ∨ m = 5 ∨ m = 7 ∨ m = 8 ∨ m = 10 ∨ m = 12 then 31
  else if m = 4 ∨ m = 6 ∨ m = 9 ∨ m = 11 then 30
  else if m = 2 then (if isLeap y then 29 else 28)
  else 0

/-- Success of `datetime.strptime(s, '%Y%m%d')`: 8 digit characters splitting
as YYYY·MM·DD with a real calendar date (year 1..9999 enforced by the
4-digit year slice together with `datetime.MINYEAR = 1`). -/
def validYMD (s : String) : Bool :=
  s.length = 8 && allDigits s &&
  (let y := digitsToNat (s.data.take 4)
   let m := digitsToNat ((s.data.drop 4).take 2)
   let d := digitsToNat (s.data.drop 6)
   1 ≤ y && 1 ≤ m && m ≤ 12 && 1 ≤ d && d ≤ daysInMonth y m)

/-- Today's date as the Python f-string
`f"{current_year}{current_month:02d}{current_day:02d}"`. -/
def todayStr (c : Clock) : String := Nat.repr c.year ++ pad2 c.month ++ pad2 c.day

/-- One pass of the per-field loop body of `smart_date_correction` over a
present value (`fitcloudagent1_lambda.py` lines 64-104). -/
def correctField (year : Nat) (v : String) : String :=
  if isBlank v then v
  else if v.length = 1 ∨ (v.length = 2 ∧ allDigits v = true) then
    Nat.repr year ++ zfill2 v
  else if v.length = 4 ∧ allDigits v = true then
    (if validYMD (Nat.repr year ++ v) then Nat.repr year ++ v else v)
  else if v.length = 8 ∨ v.length = 6 then
    (match digitsOnlyNat (sTake v 4) with
     | some y =>
       if (y : Int) < (year : Int) - 5 ∧ (2020 : Int) ≤ (y : Int) then
         (let cv := Nat.repr year ++ sDrop v 4
          if (if v.length = 8 then validYMD cv else validYMD (cv ++ "01")) = true
          then cv else v)
       else v
     | none => v)
  else v

/-- `smart_date_correction` (`fitcloudagent1_lambda.py` lines 45-106): default
`from`/`to` to today when both are absent and no `billingPeriod` is present,
then run the correction loop over each present `from`/`to` value. -/
def smart_date_correction (clock : Clock) (p : Params) : Params :=
  let p1 :=
    if p.fromv = none ∧ p.tov = none then
      if p.billingPeriod.isSome then p
      else { p with fromv := some (todayStr clock), tov := some (todayStr clock) }
    else p
  { p1 with fromv := p1.fromv.map (correctField clock.year),
            tov := p1.tov.map (correctField clock.year) }

-- sanity checks on the embedding
example : validYMD "20250615" = true := by decide
example : validYMD "20250229" = false := by decide
example : validYMD "20240229" = true := by decide
example : validYMD "20251332" = false := by decide
example : correctField 2025 "0603" = "20250603" := by decide
example : correctField 2025 "0230" = "0230" := by decide
example : correctField 2025 "5" = "202505" := by decide
example : correctField 2025 "x" = "20250x" := by decide
example : correctField 2031 "202105" = "203105" := by decide
example : correctField 2025 "202105" = "202105" := by decide
example : (smart_date_correction ⟨2025, 6, 15⟩ {}).fromv = some "20250615" := by decide

/-! ### Decimal representation facts

`Nat.repr` is CPython's `str(...)` on the year/month/day numbers; we
characterise its digits on the 1-, 2- and 4-digit ranges used by the clock. -/

theorem toDigitsCore_succ (b f n : Nat) (ds : List Char) :
    Nat.toDigitsCore b (f+1) n ds =
      if n / b = 0 then Nat.digitChar (n % b) :: ds
      else Nat.toDigitsCore b f (n / b) (Nat.digitChar (n % b) :: ds) := rfl

theorem toDigitsCore_unfold (b f n : Nat) (ds : List Char) (hf : 1 ≤ f) :
    Nat.toDigitsCore b f n ds =
      if n / b = 0 then Nat.digitChar (n % b) :: ds
      else Nat.toDigitsCore b (f-1) (n / b) (Nat.digitChar (n % b) :: ds) := by
  obtain ⟨k, rfl⟩ : ∃ k, f = k + 1 := ⟨f - 1, by omega⟩
  exact toDigitsCore_succ b k n ds

theorem repr_data_one (y : Nat) (h : y ≤ 9) : (Nat.repr y).data = [Nat.digitChar y] := by
  show ((Nat.toDigitsCore 10 (y+1) y []).asString).data = _
  rw [toDigitsCore_succ, if_pos (by omega), Nat.mod_eq_of_lt (by omega)]
  rfl

theorem repr_data_two (y : Nat) (h1 : 10 ≤ y) (h2 : y ≤ 99) :
    (Nat.repr y).data = [Nat.digitChar (y / 10), Nat.digitChar (y % 10)] := by
  show ((Nat.toDigitsCore 10 (y+1) y []).asString).data = _
  rw [toDigitsCore_succ, if_neg (by omega),
      toDigitsCore_unfold 10 y _ _ (by omega), if_pos (by omega),
      Nat.mod_eq_of_lt (by omega)]
  rfl

theorem repr_data_four (y : Nat) (h1 : 1000 ≤ y) (h2 : y ≤ 9999) :
    (Nat.repr y).data = [Nat.digitChar (y / 1000), Nat.digitChar (y / 100 % 10),
      Nat.digitChar (y / 10 % 10), Nat.digitChar (y % 10)] := by
  show ((Nat.toDigitsCore 10 (y+1) y []).asString).data = _
  rw [toDigitsCore_succ, if_neg (by omega),
      toDigitsCore_unfold 10 y _ _ (by omega), if_neg (by omega),
      toDigitsCore_unfold 10 (y-1) _ _ (by omega), if_neg (by omega),
      toDigitsCore_unfold 10 (y-1-1) _ _ (by omega), if_pos (by omega)]
  have h3 : y / 10 / 10 = y / 100 := by omega
  have h4 : y / 10 / 10 / 10 = y / 1000 := by omega
  have h5 : y / 1000 % 10 = y / 1000 := by omega
  rw [h4, h3, h5]
  rfl

theorem digitChar_isDigit (d : Nat) (h : d ≤ 9) : (Nat.digitChar d).isDigit = true := by
  interval_cases d <;> decide

theorem digitChar_val (d : Nat) (h : d ≤ 9) : (Nat.digitChar d).toNat - 48 = d := by
  interval_cases d <;> decide

theorem digit_not_ws (c : Char) (h : c.isDigit = true) : c.isWhitespace = false := by
  by_contra hw
  have hw' : c.isWhitespace = true := by
    cases hcw : c.isWhitespace
    · exact absurd hcw hw
    · rfl
  have : ((c = ' ' ∨ c = '\t') ∨ c = '\x0d') ∨ c = '\n' := by
    simpa [Char.isWhitespace] using hw'
  rcases this with ((rfl | rfl) | rfl) | rfl <;> exact absurd h (by decide)

theorem repr_four_length (y : Nat) (h1 : 1000 ≤ y) (h2 : y ≤ 9999) :
    (Nat.repr y).length = 4 := by
  show (Nat.repr y).data.length = 4
  rw [repr_data_four y h1 h2]
  rfl

theorem repr_four_digits (y : Nat) (h1 : 1000 ≤ y) (h2 : y ≤ 9999) :
    allDigits (Nat.repr y) = true := by
  unfold allDigits
  rw [repr_data_four y h1 h2]
  simp only [List.all_cons, List.all_nil, Bool.and_true]
  rw [digitChar_isDigit _ (by omega), digitChar_isDigit _ (by omega),
      digitChar_isDigit _ (by omega), digitChar_isDigit _ (by omega)]
  rfl

theorem repr_four_val (y : Nat) (h1 : 1000 ≤ y) (h2 : y ≤ 9999) :
    digitsToNat (Nat.repr y).data = y := by
  rw [repr_data_four y h1 h2]
  unfold digitsToNat
  simp only [List.foldl_cons, List.foldl_nil]
  rw [Nat.zero_mul, Nat.zero_add, digitChar_val _ (by omega), digitChar_val _ (by omega),
      digitChar_val _ (by omega), digitChar_val _ (by omega)]
  omega

theorem pad2_data_digits (n : Nat) (h : n ≤ 99) :
    (pad2 n).length = 2 ∧ allDigits (pad2 n) = true := by
  unfold pad2
  by_cases hn : n < 10
  · rw [if_pos hn]
    have hd := repr_data_one n (by omega)
    constructor
    · show (("0" ++ Nat.repr n).data).length = 2
      rw [String.data_append, hd]
      rfl
    · unfold allDigits
      rw [String.data_append, hd]
      simp only [List.all_append, List.all_cons, List.all_nil]
      rw [digitChar_isDigit _ (by omega)]
      rfl
  · rw [if_neg hn]
    have hd := repr_data_two n (by omega) (by omega)
    constructor
    · show ((Nat.repr n).data).length = 2
      rw [hd]; rfl
    · unfold allDigits
      rw [hd]
      simp only [List.all_cons, List.all_nil, Bool.and_true]
      rw [digitChar_isDigit _ (by omega), digitChar_isDigit _ (by omega)]
      rfl

theorem all_ws_false_of_digits (l1 l2 : List Char)
    (h : l1.all Char.isDigit = true) (hne : l1 ≠ []) :
    (l1 ++ l2).all Char.isWhitespace = false := by
  cases l1 with
  | nil => exact absurd rfl hne
  | cons c cs =>
    simp only [List.all_cons, Bool.and_eq_true] at h
    simp only [List.cons_append, List.all_cons]
    rw [digit_not_ws c h.1]
    rfl

/-! ### Branch behaviour of the field correction -/

theorem str_length_data (s : String) : s.length = s.data.length := rfl

theorem isBlank_false_of_digits (v : String) (hd : allDigits v = true) (hne : v.length ≠ 0) :
    isBlank v = false := by
  unfold isBlank
  have h2 : v.data ≠ [] := by
    intro h
    exact hne (by rw [str_length_data, h]; rfl)
  have := all_ws_false_of_digits v.data [] hd h2
  simpa using this

theorem correctField_mmdd (year : Nat) (v : String)
    (hlen : v.length = 4) (hdig : allDigits v = true) :
    correctField year v = if validYMD (Nat.repr year ++ v) then Nat.repr year ++ v else v := by
  have hb : ¬ (isBlank v = true) := by
    rw [isBlank_false_of_digits v hdig (by omega)]; simp
  have h12 : ¬ (v.length = 1 ∨ (v.length = 2 ∧ allDigits v = true)) := by
    rintro (h | ⟨h, -⟩) <;> omega
  unfold correctField
  rw [if_neg hb, if_neg h12, if_pos ⟨hlen, hdig⟩]

/-- C1: for a 4-digit all-digit `from`/`to` value, `smart_date_correction`
prefixes the clock's current year exactly when the result passes real calendar
validation (`validYMD`, which rejects non-leap Feb 29, month > 12, day beyond
the month's length); otherwise the field is left unchanged. -/
theorem smart_mmdd_correction (clock : Clock) (p : Params) (v : String)
    (hlen : v.length = 4) (hdig : allDigits v = true) :
    (p.fromv = some v →
      (smart_date_correction clock p).fromv =
        some (if validYMD (Nat.repr clock.year ++ v) then Nat.repr clock.year ++ v else v)) ∧
    (p.tov = some v →
      (smart_date_correction clock p).tov =
        some (if validYMD (Nat.repr clock.year ++ v) then Nat.repr clock.year ++ v else v)) := by
  constructor
  · intro hv
    have hcond : ¬ (p.fromv = none ∧ p.tov = none) := by simp [hv]
    unfold smart_date_correction
    rw [if_neg hcond]
    show Option.map (correctField clock.year) p.fromv = _
    rw [hv, Option.map_some', correctField_mmdd clock.year v hlen hdig]
  · intro hv
    have hcond : ¬ (p.fromv = none ∧ p.tov = none) := by simp [hv]
    unfold smart_date_correction
    rw [if_neg hcond]
    show Option.map (correctField clock.year) p.tov = _
    rw [hv, Option.map_some', correctField_mmdd clock.year v hlen hdig]

/-- C1 witness: with clock 2025-06-15, `"0603"` becomes `"20250603"` while the
non-leap `"0229"` is rejected by calendar validation and left unchanged. -/
theorem smart_mmdd_correction_witness :
    (smart_date_correction ⟨2025, 6, 15⟩ { fromv := some "0603" }).fromv = some "20250603" ∧
    (smart_date_correction ⟨2025, 6, 15⟩ { fromv := some "0229" }).fromv = some "0229" := by
  constructor
  · have h := (smart_mmdd_correction ⟨2025, 6, 15⟩ { fromv := some "0603" } "0603"
      (by decide) (by decide)).1 rfl
    rw [h]; decide
  · have h := (smart_mmdd_correction ⟨2025, 6, 15⟩ { fromv := some "0229" } "0229"
      (by decide) (by decide)).1 rfl
    rw [h]; decide

theorem correctField_len68 (year : Nat) (v : String)
    (hlen : v.length = 6 ∨ v.length = 8) (hdig : allDigits v = true) :
    correctField year v =
      if ((digitsToNat (v.data.take 4) : Int) < (year : Int) - 5 ∧
          (2020 : Int) ≤ (digitsToNat (v.data.take 4) : Int)) ∧
         (if v.length = 8 then validYMD (Nat.repr year ++ sDrop v 4)
          else validYMD (Nat.repr year ++ sDrop v 4 ++ "01")) = true
      then Nat.repr year ++ sDrop v 4 else v := by
  have hb : ¬ (isBlank v = true) := by
    rw [isBlank_false_of_digits v hdig (by omega)]; simp
  have h12 : ¬ (v.length = 1 ∨ (v.length = 2 ∧ allDigits v = true)) := by
    rintro (h | ⟨h, -⟩) <;> omega
  have h4 : ¬ (v.length = 4 ∧ allDigits v = true) := by rintro ⟨h, -⟩; omega
  have hvd : v.data.length = v.length := (str_length_data v).symm
  have hne : v.data.take 4 ≠ [] := by
    intro h
    have := congrArg List.length h
    rw [List.length_take] at this
    simp at this
    omega
  have hd4 : allDigits (⟨v.data.take 4⟩ : String) = true := by
    unfold allDigits at hdig ⊢
    exact List.all_eq_true.2 (fun c hc => List.all_eq_true.1 hdig c (List.take_subset _ _ hc))
  unfold correctField
  rw [if_neg hb, if_neg h12, if_neg h4, if_pos (by tauto)]
  have hTake : sTake v 4 = (⟨v.data.take 4⟩ : String) := rfl
  rw [hTake]
  unfold digitsOnlyNat
  rw [if_pos ⟨hne, hd4⟩]
  show (if ((digitsToNat (v.data.take 4) : Int) < (year : Int) - 5 ∧
            (2020 : Int) ≤ (digitsToNat (v.data.take 4) : Int)) then _ else v) = _
  by_cases hc1 : ((digitsToNat (v.data.take 4) : Int) < (year : Int) - 5 ∧
      (2020 : Int) ≤ (digitsToNat (v.data.take 4) : Int))
  · rw [if_pos hc1]
    by_cases hc2 : (if v.length = 8 then validYMD (Nat.repr year ++ sDrop v 4)
        else validYMD (Nat.repr year ++ sDrop v 4 ++ "01")) = true
    · rw [if_pos hc2, if_pos ⟨hc1, hc2⟩]
    · rw [if_neg hc2, if_neg (by rintro ⟨-, h⟩; exact hc2 h)]
  · rw [if_neg hc1, if_neg (by rintro ⟨h, -⟩; exact hc1 h)]

/-- C2: for a 6- or 8-digit all-digit `from`/`to` value, the leading 4-digit
year is rewritten to the clock's current year exactly when it is strictly
below `clock.year - 5`, at least 2020, and the rewritten value re-validates as
a calendar date (8-digit) or month (6-digit, validated as its first day);
otherwise the value is left unchanged. -/
theorem smart_year_rewrite (clock : Clock) (p : Params) (v : String)
    (hlen : v.length = 6 ∨ v.length = 8) (hdig : allDigits v = true) :
    (p.fromv = some v →
      (smart_date_correction clock p).fromv =
        some (if ((digitsToNat (v.data.take 4) : Int) < (clock.year : Int) - 5 ∧
                  (2020 : Int) ≤ (digitsToNat (v.data.take 4) : Int)) ∧
                 (if v.length = 8 then validYMD (Nat.repr clock.year ++ sDrop v 4)
                  else validYMD (Nat.repr clock.year ++ sDrop v 4 ++ "01")) = true
              then Nat.repr clock.year ++ sDrop v 4 else v)) ∧
    (p.tov = some v →
      (smart_date_correction clock p).tov =
        some (if ((digitsToNat (v.data.take 4) : Int) < (clock.year : Int) - 5 ∧
                  (2020 : Int) ≤ (digitsToNat (v.data.take 4) : Int)) ∧
                 (if v.length = 8 then validYMD (Nat.repr clock.year ++ sDrop v 4)
                  else validYMD (Nat.repr clock.year ++ sDrop v 4 ++ "01")) = true
              then Nat.repr clock.year ++ sDrop v 4 else v)) := by
  constructor
  · intro hv
    have hcond : ¬ (p.fromv = none ∧ p.tov = none) := by simp [hv]
    unfold smart_date_correction
    rw [if_neg hcond]
    show Option.map (correctField clock.year) p.fromv = _
    rw [hv, Option.map_some', correctField_len68 clock.year v hlen hdig]
  · intro hv
    have hcond : ¬ (p.fromv = none ∧ p.tov = none) := by simp [hv]
    unfold smart_date_correction
    rw [if_neg hcond]
    show Option.map (correctField clock.year) p.tov = _
    rw [hv, Option.map_some', correctField_len68 clock.year v hlen hdig]

/-- C2 witness: with clock year 2031, the stale year in `"202105"` (2021 <
2031-5, ≥ 2020, and `"203105"` re-validates) is rewritten to `"203105"`,
while with clock year 2025 the same value is left unchanged. -/
theorem smart_year_rewrite_witness :
    (smart_date_correction ⟨2031, 6, 15⟩ { fromv := some "202105" }).fromv = some "203105" ∧
    (smart_date_correction ⟨2025, 6, 15⟩ { fromv := some "202105" }).fromv = some "202105" := by
  constructor
  · have h := (smart_year_rewrite ⟨2031, 6, 15⟩ { fromv := some "202105" } "202105"
      (Or.inl (by decide)) (by decide)).1 rfl
    rw [h]; decide
  · have h := (smart_year_rewrite ⟨2025, 6, 15⟩ { fromv := some "202105" } "202105"
      (Or.inl (by decide)) (by decide)).1 rfl
    rw [h]; decide

/-- C3 (code bug): the Python guard `len(v) == 1 or (len(v) == 2 and
v.isdigit())` omits the digit check on 1-character values, so the non-digit
value `"x"` is rewritten to `"20250x"` (current year + `zfill`) instead of
passing through unmodified as the spec's rule 3 ("length is 1 or 2 and is
all-digit") requires. -/
theorem smart_single_nondigit_rewritten :
    (smart_date_correction ⟨2025, 6, 15⟩ { fromv := some "x" }).fromv = some "20250x" ∧
    ("20250x" : String) ≠ "x" := by
  exact ⟨by decide, by decide⟩

/-! ### Defaulting to today and idempotence -/

theorem repr_four_ne_nil (y : Nat) (h1 : 1000 ≤ y) (h2 : y ≤ 9999) :
    (Nat.repr y).data ≠ [] := by
  rw [repr_data_four y h1 h2]
  simp

theorem todayStr_spec (c : Clock) (hy1 : 1000 ≤ c.year) (hy2 : c.year ≤ 9999)
    (hm : c.month ≤ 99) (hd : c.day ≤ 99) :
    (todayStr c).length = 8 ∧ allDigits (todayStr c) = true ∧
      (todayStr c).data.take 4 = (Nat.repr c.year).data := by
  obtain ⟨hl1, hd1⟩ := pad2_data_digits c.month hm
  obtain ⟨hl2, hd2⟩ := pad2_data_digits c.day hd
  have hlr := repr_four_length c.year hy1 hy2
  rw [str_length_data] at hl1 hl2 hlr
  refine ⟨?_, ?_, ?_⟩
  · rw [str_length_data]
    unfold todayStr
    rw [String.data_append, String.data_append]
    simp only [List.length_append]
    omega
  · unfold allDigits todayStr
    rw [String.data_append, String.data_append]
    simp only [List.all_append, Bool.and_eq_true]
    exact ⟨⟨repr_four_digits c.year hy1 hy2, hd1⟩, hd2⟩
  · unfold todayStr
    rw [String.data_append, String.data_append, List.append_assoc, ← hlr, List.take_left]

theorem correctField_yearfix_id (year : Nat) (hy1 : 1000 ≤ year) (hy2 : year ≤ 9999)
    (v : String) (h68 : v.length = 6 ∨ v.length = 8)
    (hpre : v.data.take 4 = (Nat.repr year).data) :
    correctField year v = v := by
  have hRd : allDigits (Nat.repr year) = true := repr_four_digits year hy1 hy2
  have hRne : (Nat.repr year).data ≠ [] := repr_four_ne_nil year hy1 hy2
  have hb : isBlank v = false := by
    unfold isBlank
    conv_lhs => rw [← List.take_append_drop 4 v.data, hpre]
    exact all_ws_false_of_digits _ _ hRd hRne
  unfold correctField
  rw [if_neg (by simp [hb]), if_neg (by rintro (h | ⟨h, -⟩) <;> omega),
      if_neg (by rintro ⟨h, -⟩; omega), if_pos (by tauto)]
  have hTake : sTake v 4 = Nat.repr year := by
    show (⟨v.data.take 4⟩ : String) = Nat.repr year
    rw [hpre]
  rw [hTake]
  unfold digitsOnlyNat
  rw [if_pos ⟨hRne, hRd⟩, repr_four_val year hy1 hy2]
  show (if ((year : Int) < (year : Int) - 5 ∧ (2020 : Int) ≤ (year : Int)) then _ else v) = v
  rw [if_neg (by rintro ⟨h, -⟩; omega)]

/-- C5: when none of `from`, `to`, `billingPeriod` is present,
`smart_date_correction` sets both `from` and `to` to the clock's current date
as the zero-padded 8-digit string `YYYYMMDD`; when any of the three keys is
present, the defaulting does not fire and each present field is only passed
through the per-field correction, an absent field staying absent. -/
theorem smart_defaults_today (clock : Clock) (p : Params)
    (hy1 : 1000 ≤ clock.year) (hy2 : clock.year ≤ 9999)
    (hm : clock.month ≤ 99) (hd : clock.day ≤ 99) :
    (p.fromv = none ∧ p.tov = none ∧ p.billingPeriod = none →
       (smart_date_correction clock p).fromv = some (todayStr clock) ∧
       (smart_date_correction clock p).tov = some (todayStr clock) ∧
       (todayStr clock).length = 8 ∧ allDigits (todayStr clock) = true) ∧
    (¬ (p.fromv = none ∧ p.tov = none ∧ p.billingPeriod = none) →
       (smart_date_correction clock p).fromv = p.fromv.map (correctField clock.year) ∧
       (smart_date_correction clock p).tov = p.tov.map (correctField clock.year)) := by
  obtain ⟨hts1, hts2, hts3⟩ := todayStr_spec clock hy1 hy2 hm hd
  have hcf : correctField clock.year (todayStr clock) = todayStr clock :=
    correctField_yearfix_id clock.year hy1 hy2 (todayStr clock) (Or.inr hts1) hts3
  constructor
  · rintro ⟨h1, h2, h3⟩
    unfold smart_date_correction
    rw [if_pos ⟨h1, h2⟩, if_neg (by rw [h3]; simp)]
    exact ⟨by show some (correctField clock.year (todayStr clock)) = _; rw [hcf],
           by show some (correctField clock.year (todayStr clock)) = _; rw [hcf],
           hts1, hts2⟩
  · intro hn
    by_cases hft : p.fromv = none ∧ p.tov = none
    · have hbp : p.billingPeriod.isSome = true := by
        rcases h : p.billingPeriod with - | s
        · exact absurd ⟨hft.1, hft.2, h⟩ hn
        · rfl
      unfold smart_date_correction
      rw [if_pos hft, if_pos hbp]
      exact ⟨rfl, rfl⟩
    · unfold smart_date_correction
      rw [if_neg hft]
      exact ⟨rfl, rfl⟩

/-- C5 witness: the empty bag with clock 2025-06-15 defaults both fields to
`"20250615"`, and a bag carrying only `billingPeriod` is not defaulted. -/
theorem smart_defaults_today_witness :
    (smart_date_correction ⟨2025, 6, 15⟩ {}).fromv = some "20250615" ∧
    (smart_date_correction ⟨2025, 6, 15⟩ {}).tov = some "20250615" ∧
    (smart_date_correction ⟨2025, 6, 15⟩ { billingPeriod := some "202106" }).fromv = none := by
  have h := (smart_defaults_today ⟨2025, 6, 15⟩ {} (by decide) (by decide) (by decide) (by decide)).1
    ⟨rfl, rfl, rfl⟩
  have h2 := (smart_defaults_today ⟨2025, 6, 15⟩ { billingPeriod := some "202106" }
    (by decide) (by decide) (by decide) (by decide)).2 (by rintro ⟨-, -, h⟩; cases h)
  have e : todayStr ⟨2025, 6, 15⟩ = "20250615" := by decide
  exact ⟨by rw [h.1, e], by rw [h.2.1, e], by rw [h2.1]; rfl⟩

theorem validYMD_length (s : String) (h : validYMD s = true) : s.length = 8 := by
  unfold validYMD at h
  simp only [Bool.and_eq_true, decide_eq_true_eq] at h
  exact h.1.1

theorem correctField_fix (year : Nat) (hy1 : 1000 ≤ year) (hy2 : year ≤ 9999) (v : String) :
    correctField year (correctField year v) = correctField year v := by
  have hRlen : (Nat.repr year).data.length = 4 := by rw [repr_data_four year hy1 hy2]; rfl
  have hfix : ∀ t : String, (Nat.repr year ++ t).length = 6 ∨ (Nat.repr year ++ t).length = 8 →
      correctField year (Nat.repr year ++ t) = Nat.repr year ++ t := by
    intro t ht
    apply correctField_yearfix_id year hy1 hy2 _ ht
    rw [String.data_append, ← hRlen, List.take_left]
  by_cases hb : isBlank v = true
  · have h1 : correctField year v = v := by unfold correctField; rw [if_pos hb]
    rw [h1]; exact h1
  · by_cases h12 : v.length = 1 ∨ (v.length = 2 ∧ allDigits v = true)
    · have h1 : correctField year v = Nat.repr year ++ zfill2 v := by
        unfold correctField; rw [if_neg hb, if_pos h12]
      have hz : (zfill2 v).data.length = 2 := by
        unfold zfill2
        rcases h12 with h | ⟨h, -⟩
        · rw [if_neg (by omega), if_pos h, String.data_append]
          rw [str_length_data] at h
          simp [h]
        · rw [if_neg (by omega), if_neg (by omega)]
          rw [str_length_data] at h
          exact h
      rw [h1]
      apply hfix
      left
      rw [str_length_data, String.data_append, List.length_append, hRlen, hz]
    · by_cases h4 : v.length = 4 ∧ allDigits v = true
      · have h1 : correctField year v =
            (if validYMD (Nat.repr year ++ v) then Nat.repr year ++ v else v) := by
          unfold correctField; rw [if_neg hb, if_neg h12, if_pos h4]
        by_cases hval : validYMD (Nat.repr year ++ v) = true
        · have h2 : correctField year v = Nat.repr year ++ v := by rw [h1, if_pos hval]
          rw [h2]
          apply hfix
          right
          exact validYMD_length _ hval
        · have h2 : correctField year v = v := by rw [h1, if_neg hval]
          rw [h2]; exact h2
      · by_cases h68 : v.length = 8 ∨ v.length = 6
        · have he : correctField year v =
              (match digitsOnlyNat (sTake v 4) with
               | some y0 =>
                 if (y0 : Int) < (year : Int) - 5 ∧ (2020 : Int) ≤ (y0 : Int) then
                   (let cv := Nat.repr year ++ sDrop v 4
                    if (if v.length = 8 then validYMD cv else validYMD (cv ++ "01")) = true
                    then cv else v)
                 else v
               | none => v) := by
            unfold correctField
            rw [if_neg hb, if_neg h12, if_neg h4, if_pos h68]
          cases hparse : digitsOnlyNat (sTake v 4) with
          | none =>
            rw [hparse] at he
            have he2 : correctField year v = v := he.trans rfl
            rw [he2]; exact he2
          | some y =>
            rw [hparse] at he
            have he2 : correctField year v =
                (if (y : Int) < (year : Int) - 5 ∧ (2020 : Int) ≤ (y : Int) then
                   (if (if v.length = 8 then validYMD (Nat.repr year ++ sDrop v 4)
                        else validYMD (Nat.repr year ++ sDrop v 4 ++ "01")) = true
                    then Nat.repr year ++ sDrop v 4 else v)
                 else v) := he.trans rfl
            by_cases hc : (y : Int) < (year : Int) - 5 ∧ (2020 : Int) ≤ (y : Int)
            · rw [if_pos hc] at he2
              by_cases hv2 : (if v.length = 8 then validYMD (Nat.repr year ++ sDrop v 4)
                  else validYMD (Nat.repr year ++ sDrop v 4 ++ "01")) = true
              · rw [if_pos hv2] at he2
                rw [he2]
                apply hfix
                rcases h68 with h8 | h6
                · right
                  rw [if_pos h8] at hv2
                  exact validYMD_length _ hv2
                · left
                  rw [if_neg (by omega)] at hv2
                  have h8 := validYMD_length _ hv2
                  rw [str_length_data, String.data_append, List.length_append] at h8
                  rw [str_length_data]
                  have h01 : ("01" : String).data.length = 2 := rfl
                  omega
              · rw [if_neg hv2] at he2
                rw [he2]; exact he2
            · rw [if_neg hc] at he2
              rw [he2]; exact he2
        · have h1 : correctField year v = v := by
            unfold correctField; rw [if_neg hb, if_neg h12, if_neg h4, if_neg h68]
          rw [h1]; exact h1

theorem sdc_skip_bp (clock : Clock) (p : Params) (h1 : p.fromv = none) (h2 : p.tov = none)
    (h3 : p.billingPeriod.isSome = true) : smart_date_correction clock p = p := by
  obtain ⟨f, t, b, a, bd, ed⟩ := p
  obtain rfl : f = none := h1
  obtain rfl : t = none := h2
  unfold smart_date_correction
  rw [if_pos ⟨rfl, rfl⟩, if_pos h3]
  rfl

theorem sdc_default_eq (clock : Clock) (p : Params) (h1 : p.fromv = none) (h2 : p.tov = none)
    (h3 : p.billingPeriod = none) :
    smart_date_correction clock p =
      { p with fromv := some (correctField clock.year (todayStr clock)),
               tov := some (correctField clock.year (todayStr clock)) } := by
  unfold smart_date_correction
  rw [if_pos ⟨h1, h2⟩, if_neg (by rw [h3]; simp)]
  rfl

theorem sdc_loop_eq (clock : Clock) (p : Params) (h : ¬ (p.fromv = none ∧ p.tov = none)) :
    smart_date_correction clock p =
      { p with fromv := p.fromv.map (correctField clock.year),
               tov := p.tov.map (correctField clock.year) } := by
  unfold smart_date_correction
  rw [if_neg h]

/-- C4: `smart_date_correction` is idempotent: a second application with the
same reference clock returns the first application's output unchanged. -/
theorem smart_date_correction_idem (clock : Clock) (p : Params)
    (hy1 : 1000 ≤ clock.year) (hy2 : clock.year ≤ 9999) :
    smart_date_correction clock (smart_date_correction clock p) =
      smart_date_correction clock p := by
  have hfix := correctField_fix clock.year hy1 hy2
  by_cases hft : p.fromv = none ∧ p.tov = none
  · rcases hbp : p.billingPeriod with - | s
    · rw [sdc_default_eq clock p hft.1 hft.2 hbp]
      rw [sdc_loop_eq clock _ (by simp)]
      simp only [Option.map_some']
      rw [hfix (todayStr clock)]
    · have hbs : p.billingPeriod.isSome = true := by rw [hbp]; rfl
      rw [sdc_skip_bp clock p hft.1 hft.2 hbs, sdc_skip_bp clock p hft.1 hft.2 hbs]
  · rw [sdc_loop_eq clock p hft]
    have h2 : ¬ (((p.fromv.map (correctField clock.year)) = none) ∧
        ((p.tov.map (correctField clock.year)) = none)) := by
      rintro ⟨ha, hb⟩
      exact hft ⟨Option.map_eq_none'.1 ha, Option.map_eq_none'.1 hb⟩
    rw [sdc_loop_eq clock _ h2]
    simp only [Option.map_map]
    have hcc : correctField clock.year ∘ correctField clock.year = correctField clock.year :=
      funext (fun v => hfix v)
    rw [hcc]

/-- C4 witness: a bag whose `from` is a bare month and whose `to` is absent is
a fixed point of a second pass with clock year 2025. -/
theorem smart_date_correction_idem_witness :
    smart_date_correction ⟨2025, 6, 15⟩ (smart_date_correction ⟨2025, 6, 15⟩
        { fromv := some "5" }) =
      smart_date_correction ⟨2025, 6, 15⟩ { fromv := some "5" } :=
  smart_date_correction_idem ⟨2025, 6, 15⟩ { fromv := some "5" } (by decide) (by decide)

/-! ### Endpoint resolution (`determine_api_path`) -/

/-- Python `s.strip()`: drop leading and trailing whitespace. -/
def sTrim (s : String) : String :=
  ⟨((s.data.dropWhile Char.isWhitespace).reverse.dropWhile Char.isWhitespace).reverse⟩

/-- Python `s.lower()` (ASCII case folding; the strings compared here are
ASCII). -/
def sLower (s : String) : String := ⟨s.data.map Char.toLower⟩

/-- Python truthiness-plus-guards test used by `determine_api_path` for both
`billingPeriod` and `accountId`: present, truthy (non-empty), non-blank after
`strip()`, and not the literal string `'none'` case-insensitively. -/
def paramTruthy (o : Option String) : Bool :=
  match o with
  | some s => s ≠ "" && sTrim s ≠ "" && sLower (sTrim s) ≠ "none"
  | none => false

/-- Date-format classification of `params['from']` inside `determine_api_path`
(`fitcloudagent1_lambda.py` lines 696-702): `some true` = daily (8 chars),
`some false` = monthly (6 chars), `none` = unknown. -/
def fromFormat (o : Option String) : Option Bool :=
  match o with
  | some s =>
    if s ≠ "" then
      (if s.length = 8 then some true else if s.length = 6 then some false else none)
    else none
  | none => none

/-- `determine_api_path` (`fitcloudagent1_lambda.py` lines 689-729). -/
def determine_api_path (p : Params) : String :=
  let has_billing_period := paramTruthy p.billingPeriod
  let has_account_id := paramTruthy p.accountId
  let date_format := fromFormat p.fromv
  if has_billing_period then
    (if has_account_id then "/costs/ondemand/account/monthly"
     else "/costs/ondemand/corp/monthly")
  else if has_account_id then
    (match date_format with
     | some true => "/costs/ondemand/account/daily"
     | some false => "/costs/ondemand/account/monthly"
     | none => "/costs/ondemand/account/daily")
  else
    (match date_format with
     | some true => "/costs/ondemand/corp/daily"
     | some false => "/costs/ondemand/corp/monthly"
     | none => "/costs/ondemand/corp/daily")

example : paramTruthy (some "202108") = true := by decide
example : paramTruthy (some "None") = false := by decide
example : paramTruthy (some "  ") = false := by decide

/-- C7 counterexample: `billingPeriod = "none"` is present and non-empty, so
the claim routes to the monthly cost endpoint, but the code's truthiness guard
treats the literal string `'none'` as absent and resolves the daily default. -/
theorem determine_api_path_none_counterexample :
    determine_api_path { billingPeriod := some "none" } = "/costs/ondemand/corp/daily" ∧
    determine_api_path { billingPeriod := some "none" } ≠ "/costs/ondemand/corp/monthly" ∧
    ("none" : String) ≠ "" := by
  refine ⟨by decide, by decide, by decide⟩

/-- C7 as amended: `billingPeriod` (resp. `accountId`) counts as present only
when non-empty, non-blank, and not `'none'` case-insensitively (`paramTruthy`);
under that reading, a truthy `billingPeriod` always selects the monthly cost
endpoint (account-scoped exactly when `accountId` is truthy) regardless of
`from`/`to`, and otherwise an 8-character `from` selects daily, a 6-character
`from` selects monthly, and an absent or other-width `from` defaults to daily. -/
theorem determine_api_path_resolution (p : Params) :
    (paramTruthy p.billingPeriod = true →
       determine_api_path p =
         (if paramTruthy p.accountId then "/costs/ondemand/account/monthly"
          else "/costs/ondemand/corp/monthly")) ∧
    (paramTruthy p.billingPeriod = false →
       (∀ s, p.fromv = some s → s.length = 8 →
          determine_api_path p =
            (if paramTruthy p.accountId then "/costs/ondemand/account/daily"
             else "/costs/ondemand/corp/daily")) ∧
       (∀ s, p.fromv = some s → s.length = 6 →
          determine_api_path p =
            (if paramTruthy p.accountId then "/costs/ondemand/account/monthly"
             else "/costs/ondemand/corp/monthly")) ∧
       ((∀ s, p.fromv = some s → s.length ≠ 8 ∧ s.length ≠ 6) →
          determine_api_path p =
            (if paramTruthy p.accountId then "/costs/ondemand/account/daily"
             else "/costs/ondemand/corp/daily"))) := by
  constructor
  · intro hbp
    simp only [determine_api_path, hbp, if_true]
  · intro hbp
    have hne : ∀ s : String, s.length = 8 ∨ s.length = 6 → s ≠ "" := by
      intro s hs he
      subst he
      rcases hs with h | h <;> exact absurd h (by decide)
    refine ⟨?_, ?_, ?_⟩
    · intro s hsv hs8
      have hf : fromFormat p.fromv = some true := by
        rw [hsv]
        show (if s ≠ "" then
                (if s.length = 8 then some true else if s.length = 6 then some false else none)
              else none) = some true
        rw [if_pos (hne s (Or.inl hs8)), if_pos hs8]
      simp only [determine_api_path, hbp, hf, Bool.false_eq_true, if_false]
    · intro s hsv hs6
      have hf : fromFormat p.fromv = some false := by
        rw [hsv]
        show (if s ≠ "" then
                (if s.length = 8 then some true else if s.length = 6 then some false else none)
              else none) = some false
        rw [if_pos (hne s (Or.inr hs6)), if_neg (by omega), if_pos hs6]
      simp only [determine_api_path, hbp, hf, Bool.false_eq_true, if_false]
    · intro hs
      have hf : fromFormat p.fromv = none := by
        rcases hv : p.fromv with - | s
        · rfl
        · obtain ⟨h8, h6⟩ := hs s hv
          show (if s ≠ "" then
                  (if s.length = 8 then some true else if s.length = 6 then some false else none)
                else none) = none
          by_cases hse : s ≠ ""
          · rw [if_pos hse, if_neg h8, if_neg h6]
          · rw [if_neg hse]
      simp only [determine_api_path, hbp, hf, Bool.false_eq_true, if_false]

/-- C7 witness: scenario C routing (`billingPeriod = "202108"` goes to the
corp monthly endpoint even with a daily-width `from` present) and the daily
default for an absent `from`. -/
theorem determine_api_path_resolution_witness :
    determine_api_path { billingPeriod := some "202108", fromv := some "20250601" } =
      "/costs/ondemand/corp/monthly" ∧
    determine_api_path {} = "/costs/ondemand/corp/daily" := by
  constructor
  · have h := (determine_api_path_resolution
      { billingPeriod := some "202108", fromv := some "20250601" }).1 (by decide)
    rw [h]; decide
  · have h := ((determine_api_path_resolution {}).2 (by decide)).2.2 (by rintro s ⟨⟩)
    rw [h]; decide

/-! ### Summary formatters -/

/-- A cost/usage row as read by the summary and projection code; every field
the Python code accesses with `.get(...)` is optional. -/
structure CostItem where
  serviceName : Option String := none
  usageFeeUSD : Option ℚ := none
  onDemandCost : Option ℚ := none
  date : Option String := none
  dailyDate : Option String := none
  monthlyDate : Option String := none
  billingPeriod : Option String := none
deriving DecidableEq, Repr

/-- `item.get('usageFeeUSD', item.get('onDemandCost', 0.0))`. -/
def itemVal (i : CostItem) : ℚ :=
  match i.usageFeeUSD with
  | some q => q
  | none => i.onDemandCost.getD 0

/-- Python `x or y` on string-or-missing values: the first truthy (present and
non-empty) one, else `y`. -/
def orElse (a : Option String) (b : String) : String :=
  match a with
  | some s => if s = "" then b else s
  | none => b

/-- The grouping key of the daily branch, `item.get('date') or
item.get('dailyDate') or item.get('monthlyDate') or item.get('billingPeriod', '')`. -/
def dateKeyOf (i : CostItem) : String :=
  orElse i.date (orElse i.dailyDate (orElse i.monthlyDate (orElse i.billingPeriod "")))

/-- `item.get('serviceName', '기타')`. -/
def serviceKeyOf (i : CostItem) : String := i.serviceName.getD "기타"

/-- One `defaultdict(float)` accumulation step: add `v` to the entry of `k`,
appending a new entry (dict insertion order) when the key is new. -/
def addToGroups (gs : List (String × ℚ)) (k : String) (v : ℚ) : List (String × ℚ) :=
  match gs with
  | [] => [(k, v)]
  | (k', v') :: rest => if k' = k then (k', v' + v) :: rest else (k', v') :: addToGroups rest k v

/-- `defaultdict(float)` accumulation over a list of rows; the result lists
`(key, summed value)` pairs in first-occurrence (dict insertion) order. -/
def groupSums {α : Type} (keyOf : α → String) (valOf : α → ℚ) (items : List α) :
    List (String × ℚ) :=
  items.foldl (fun gs i => addToGroups gs (keyOf i) (valOf i)) []

/-- Python `sorted(..., key=lambda x: abs(x[1]), reverse=True)`: a stable sort
by descending absolute amount (insertion sort is stable, like Python's sort). -/
def rankDesc (gs : List (String × ℚ)) : List (String × ℚ) :=
  List.insertionSort (fun a b => |b.2| ≤ |a.2|) gs

/-- The ranked rows actually rendered by each formatter: the shown top-`n`
rows, the optional `기타` (other) row — shown only when its amount is
positive — and the total row. -/
structure SummaryTable where
  rows : List (String × ℚ)
  other : Option ℚ
  total : ℚ
deriving DecidableEq, Repr

/-- The shared `sorted(...)[:n]` / `etc = total - sum(topN)` / `if etc > 0`
computation of the four formatters. -/
def mkTable (gs : List (String × ℚ)) (total : ℚ) (n : Nat) : SummaryTable :=
  let top := (rankDesc gs).take n
  let etc := total - (top.map Prod.snd).sum
  { rows := top, other := if 0 < etc then some etc else none, total := total }

/-- Structured content of `summarize_cost_items_table`'s message (the
percentage strings and Korean month formatting are rendering only). -/
inductive CostMsg where
  | noData (label : String)
  | dailyTables (tables : List (String × SummaryTable))
  | monthlyTable (label : String) (t : SummaryTable)
deriving DecidableEq, Repr

/-- First-occurrence deduplication: the keys of a `defaultdict` in insertion
order. -/
def dedupFirst (l : List String) : List String :=
  l.foldl (fun acc x => if x ∈ acc then acc else acc ++ [x]) []

/-- `summarize_cost_items_table` (`fitcloudagent1_lambda.py` lines 568-624):
daily mode groups per date (dates rendered in ascending `sorted(...)` order)
and takes the top 8 services per date; monthly mode takes the top 10 over the
whole list. -/
def summarize_cost_items_table (cost_items : List CostItem) (month_str : String)
    (is_daily : Bool) : CostMsg :=
  if cost_items = [] then .noData month_str
  else if is_daily then
    .dailyTables
      ((List.insertionSort (fun a b : String => a ≤ b)
          (dedupFirst (cost_items.map dateKeyOf))).map (fun d =>
        let dItems := cost_items.filter (fun i => dateKeyOf i = d)
        (d, mkTable (groupSums serviceKeyOf itemVal dItems) ((dItems.map itemVal).sum) 8)))
  else
    .monthlyTable month_str
      (mkTable (groupSums serviceKeyOf itemVal cost_items) ((cost_items.map itemVal).sum) 10)

/-- An invoice row; `summarize_invoice_items` indexes `item['usageFeeUSD']`
directly (a row without the fee would raise `KeyError`), so the fee is a
mandatory field here. -/
structure InvoiceItem where
  serviceName : Option String := none
  usageFeeUSD : ℚ := 0
deriving DecidableEq, Repr

/-- Structured content of `summarize_invoice_items`' message. -/
inductive InvoiceMsg where
  | noData (billingPeriod : String)
  | table (billingPeriod : String) (t : SummaryTable)
deriving DecidableEq, Repr

/-- `summarize_invoice_items` (`fitcloudagent1_lambda.py` lines 626-657):
top 8 services by absolute amount. -/
def summarize_invoice_items (invoice_items : List InvoiceItem) (billing_period : String) :
    InvoiceMsg :=
  if invoice_items = [] then .noData billing_period
  else
    .table billing_period
      (mkTable (groupSums (fun i : InvoiceItem => i.serviceName.getD "기타")
          (fun i => i.usageFeeUSD) invoice_items)
        ((invoice_items.map (fun i => i.usageFeeUSD)).sum) 8)

/-- A tag-usage row; `tagsJson` is the decoded tag map in insertion order
(the Python code decodes a JSON string defensively, `{}` on failure — decode
failure is the empty list here). -/
structure TagItem where
  tagsJson : List (String × String) := []
  usageFeeUSD : Option ℚ := none
  onDemandCost : Option ℚ := none
deriving DecidableEq, Repr

/-- The tag-signature key `', '.join(f"{k}:{v}" ...)` with `'기타'` for an
empty map. -/
def tagKeyOf (i : TagItem) : String :=
  if i.tagsJson = [] then "기타"
  else String.intercalate ", " (i.tagsJson.map (fun kv => kv.1 ++ ":" ++ kv.2))

/-- `item.get('usageFeeUSD', item.get('onDemandCost', 0.0))` for tag rows. -/
def tagVal (i : TagItem) : ℚ :=
  match i.usageFeeUSD with
  | some q => q
  | none => i.onDemandCost.getD 0

/-- Structured content of `summarize_tag_items_table`'s message. -/
inductive TagMsg where
  | noData (begin_date end_date : String)
  | table (begin_date end_date : String) (t : SummaryTable)
deriving DecidableEq, Repr

/-- `summarize_tag_items_table` (`fitcloudagent1_lambda.py` lines 659-687):
top 10 tag signatures by absolute amount. -/
def summarize_tag_items_table (tag_items : List TagItem) (begin_date end_date : String) :
    TagMsg :=
  if tag_items = [] then .noData begin_date end_date
  else
    .table begin_date end_date
      (mkTable (groupSums tagKeyOf tagVal tag_items) ((tag_items.map tagVal).sum) 10)

/-- Nine distinct invoice services; under the claim's "top 10 for the invoice
view" all nine would be shown. -/
def c9_invoice_items : List InvoiceItem :=
  [⟨some "S1", 90⟩, ⟨some "S2", 80⟩, ⟨some "S3", 70⟩, ⟨some "S4", 60⟩,
   ⟨some "S5", 50⟩, ⟨some "S6", 40⟩, ⟨some "S7", 30⟩, ⟨some "S8", 20⟩, ⟨some "S9", 10⟩]

/-- C9 counterexample: the invoice formatter takes the top 8 (not 10): with
nine services only eight rows are shown (`S9` is folded into the other
bucket), so the shown rows differ from the claim's top-10 list. -/
theorem summarize_invoice_top8_counterexample :
    summarize_invoice_items c9_invoice_items "202501" =
      .table "202501"
        { rows := [("S1", 90), ("S2", 80), ("S3", 70), ("S4", 60),
                   ("S5", 50), ("S6", 40), ("S7", 30), ("S8", 20)],
          other := some 10, total := 450 } ∧
    ((rankDesc (groupSums (fun i : InvoiceItem => i.serviceName.getD "기타")
        (fun i => i.usageFeeUSD) c9_invoice_items)).take 10).length = 9 := by
  constructor
  · unfold summarize_invoice_items
    rw [if_neg (show ¬ (c9_invoice_items = []) by decide)]
    norm_num [c9_invoice_items, mkTable, rankDesc, groupSums,
      addToGroups, List.insertionSort, List.orderedInsert, abs]
  · norm_num [rankDesc, groupSums, c9_invoice_items, addToGroups,
      List.insertionSort, List.orderedInsert, abs]

/-- The ranking/top-`n`/other-bucket contract shared by the formatters: the
shown rows are the first `n` entries of a permutation of the grouped sums
sorted by descending absolute amount, the total is the sum over all items,
and the other bucket equals total minus the shown rows' sum, present exactly
when positive. -/
def TopNSpec (t : SummaryTable) (gs : List (String × ℚ)) (total : ℚ) (n : Nat) : Prop :=
  ∃ l : List (String × ℚ),
    l.Perm gs ∧ l.Sorted (fun a b => |b.2| ≤ |a.2|) ∧ t.rows = l.take n ∧
    t.total = total ∧
    t.other = (if 0 < total - ((t.rows.map Prod.snd).sum)
               then some (total - ((t.rows.map Prod.snd).sum)) else none)

theorem mkTable_spec (gs : List (String × ℚ)) (total : ℚ) (n : Nat) :
    TopNSpec (mkTable gs total n) gs total n := by
  have ht : IsTotal (String × ℚ) (fun a b => |b.2| ≤ |a.2|) := ⟨fun a b => le_total _ _⟩
  have htr : IsTrans (String × ℚ) (fun a b => |b.2| ≤ |a.2|) :=
    ⟨fun a b c h1 h2 => le_trans h2 h1⟩
  exact ⟨rankDesc gs, List.perm_insertionSort _ gs, List.sorted_insertionSort _ gs,
    rfl, rfl, rfl⟩

/-- C9 as amended: every formatter ranks its groups by absolute summed amount
descending; the plain monthly cost view and the tag view show the top 10
groups, the invoice view and each date of the daily view show the top 8; the
remainder is bucketed into a single other row whose amount is total minus the
sum of the shown rows, omitted whenever that amount is not positive. -/
theorem summary_ranking_topN :
    (∀ (items : List CostItem) (m : String), items ≠ [] →
       ∃ t, summarize_cost_items_table items m false = .monthlyTable m t ∧
         TopNSpec t (groupSums serviceKeyOf itemVal items) ((items.map itemVal).sum) 10) ∧
    (∀ (items : List InvoiceItem) (bp : String), items ≠ [] →
       ∃ t, summarize_invoice_items items bp = .table bp t ∧
         TopNSpec t (groupSums (fun i : InvoiceItem => i.serviceName.getD "기타")
             (fun i => i.usageFeeUSD) items) ((items.map (fun i => i.usageFeeUSD)).sum) 8) ∧
    (∀ (items : List TagItem) (b e : String), items ≠ [] →
       ∃ t, summarize_tag_items_table items b e = .table b e t ∧
         TopNSpec t (groupSums tagKeyOf tagVal items) ((items.map tagVal).sum) 10) ∧
    (∀ (items : List CostItem) (m : String), items ≠ [] →
       ∃ ts, summarize_cost_items_table items m true = .dailyTables ts ∧
         ∀ d t, (d, t) ∈ ts →
           TopNSpec t (groupSums serviceKeyOf itemVal (items.filter (fun i => dateKeyOf i = d)))
             (((items.filter (fun i => dateKeyOf i = d)).map itemVal).sum) 8) := by
  refine ⟨?_, ?_, ?_, ?_⟩
  · intro items m h
    refine ⟨_, ?_, mkTable_spec _ _ _⟩
    unfold summarize_cost_items_table
    rw [if_neg h, if_neg (by simp)]
  · intro items bp h
    refine ⟨_, ?_, mkTable_spec _ _ _⟩
    unfold summarize_invoice_items
    rw [if_neg h]
  · intro items b e h
    refine ⟨_, ?_, mkTable_spec _ _ _⟩
    unfold summarize_tag_items_table
    rw [if_neg h]
  · intro items m h
    refine ⟨(List.insertionSort (fun a b : String => a ≤ b)
        (dedupFirst (items.map dateKeyOf))).map (fun d =>
          let dItems := items.filter (fun i => dateKeyOf i = d)
          (d, mkTable (groupSums serviceKeyOf itemVal dItems) ((dItems.map itemVal).sum) 8)),
      ?_, ?_⟩
    · unfold summarize_cost_items_table
      rw [if_neg h, if_pos rfl]
    · intro d t hmem
      rw [List.mem_map] at hmem
      obtain ⟨d', -, hd⟩ := hmem
      obtain ⟨rfl, rfl⟩ : d' = d ∧
          (mkTable (groupSums serviceKeyOf itemVal
              (items.filter (fun i => dateKeyOf i = d')))
            (((items.filter (fun i => dateKeyOf i = d')).map itemVal).sum) 8) = t := by
        injection hd with h1 h2
        exact ⟨h1, h2⟩
      exact mkTable_spec _ _ _

/-- C9 witness: the amended theorem applied to a concrete one-row invoice. -/
theorem summary_ranking_topN_witness :
    ∃ t, summarize_invoice_items [⟨some "EC2", 5⟩] "202501" = .table "202501" t ∧
      TopNSpec t (groupSums (fun i : InvoiceItem => i.serviceName.getD "기타")
          (fun i => i.usageFeeUSD) [⟨some "EC2", 5⟩])
        (([⟨some "EC2", (5 : ℚ)⟩] : List InvoiceItem).map (fun i => i.usageFeeUSD)).sum 8 :=
  summary_ranking_topN.2.1 [⟨some "EC2", 5⟩] "202501" (List.cons_ne_nil _ _)

/-! ### Response projection (`process_fitcloud_response`) -/

/-- `response_data['header']` with `.get`-style field access: `code` may be
absent (Python `None`), `message` defaults to `''`. -/
structure FitHeader where
  code : Option Int := none
  message : String := ""
deriving DecidableEq, Repr

/-- `response_data.get('body', [])`: a JSON list of rows or some non-list
value (an absent key behaves as `.list []`). -/
inductive FitBody where
  | list (items : List CostItem)
  | nonList
deriving DecidableEq, Repr

/-- A dict-shaped FitCloud response; the `cost_items`/`usage_items`/
`usage_tag_items` keys are probed by the 200-branch before falling back to
`body`. -/
structure DictResponse where
  header : Option FitHeader := none
  body : FitBody := .list []
  cost_items : Option (List CostItem) := none
  usage_items : Option (List CostItem) := none
  usage_tag_items : Option (List CostItem) := none
deriving DecidableEq, Repr

/-- A FitCloud API response: a bare JSON list or a header/body dict. -/
inductive FitResponse where
  | jsonList (l : List CostItem)
  | jsonDict (d : DictResponse)
deriving DecidableEq, Repr

/-- The message slot of a processed result: a plain string or the structured
cost summary produced by `summarize_cost_items_table`. -/
inductive PMessage where
  | text (s : String)
  | costSummary (m : CostMsg)
deriving DecidableEq, Repr

/-- Shape of the dicts returned by `process_fitcloud_response` on success. -/
structure ProcResult where
  success : Bool
  accounts : Option (List CostItem) := none
  data : Option FitBody := none
  cost_items : Option (List CostItem) := none
  message : PMessage
  code : Option Int
deriving DecidableEq, Repr

/-- Outcome of a Python function that can `raise ValueError(msg)`. -/
inductive ProcOutcome where
  | ok (r : ProcResult)
  | error (msg : String)
deriving DecidableEq, Repr

/-- Python `f"{code}"` where `code` is an int or `None`. -/
def codeStr (c : Option Int) : String :=
  match c with
  | some i => toString i
  | none => "None"

/-- Python `s.startswith(pre)`. -/
def startsWithStr (s pre : String) : Bool := pre.data.isPrefixOf s.data

/-- The month-string/daily-flag extraction of the 200-branch
(`fitcloudagent1_lambda.py` lines 333-342). -/
def monthAndDaily (items : List CostItem) : String × Bool :=
  match items with
  | [] => ("", false)
  | i0 :: _ =>
    if i0.dailyDate.isSome ∨ (∃ s, i0.date = some s ∧ s ≠ "" ∧ s.length = 8) then
      (sTake (orElse i0.date (orElse i0.dailyDate "")) 6, true)
    else if i0.monthlyDate.isSome then
      (sTake (i0.monthlyDate.getD "") 6, false)
    else if i0.billingPeriod.isSome then
      (i0.billingPeriod.getD "", false)
    else ("", false)

/-- `process_fitcloud_response` (`fitcloudagent1_lambda.py` lines 304-357).
Responses that are neither a list nor a dict raise `"Invalid response format
from FitCloud API"`; that case is outside `FitResponse`. -/
def process_fitcloud_response (response_data : FitResponse) (api_path : String) :
    ProcOutcome :=
  match response_data with
  | .jsonList l =>
    if api_path = "/accounts" then
      .ok { success := true, accounts := some l, message := .text "계정 목록 조회 완료",
            code := some 200 }
    else
      .ok { success := true, data := some (.list l), message := .text "조회 완료",
            code := some 200 }
  | .jsonDict d =>
    let header := d.header.getD {}
    let code := header.code
    let message := header.message
    let body := d.body
    if code = some 200 then
      (if startsWithStr api_path "/costs/ondemand/" ∨
          startsWithStr api_path "/usage/ondemand/" then
        let items :=
          match d.cost_items with
          | some l => l
          | none =>
            match d.usage_items with
            | some l => l
            | none =>
              match d.usage_tag_items with
              | some l => l
              | none => (match body with | .list l => l | .nonList => [])
        let md := monthAndDaily items
        .ok { success := true, cost_items := some items,
              message := .costSummary (summarize_cost_items_table items md.1 md.2),
              code := code }
      else
        .ok { success := true, data := some body, message := .text message, code := code })
    else if code = some 203 ∨ code = some 204 then
      (if startsWithStr api_path "/costs/ondemand/" then
        .ok { success := true, cost_items := some [], message := .text message, code := code }
      else
        .ok { success := true, data := some (.list []), message := .text message, code := code })
    else
      .error ("FitCloud API error " ++ codeStr code ++ ": " ++ message)

/-- C8: a header/body response with code 203 or 204 yields a successful
result with an empty item list (never an error); any code other than
200/203/204 raises a `ValueError` carrying the header's code and message in
the form `"FitCloud API error {code}: {message}"`. -/
theorem process_response_code_policy (d : DictResponse) (api_path : String) :
    (((d.header.getD {}).code = some 203 ∨ (d.header.getD {}).code = some 204) →
       ∃ r, process_fitcloud_response (.jsonDict d) api_path = .ok r ∧
         r.success = true ∧ (r.cost_items = some [] ∨ r.data = some (.list []))) ∧
    (∀ c : Int, (d.header.getD {}).code = some c → c ≠ 200 → c ≠ 203 → c ≠ 204 →
       process_fitcloud_response (.jsonDict d) api_path =
         .error ("FitCloud API error " ++ toString c ++ ": " ++ (d.header.getD {}).message)) := by
  constructor
  · intro hc
    have h200 : ¬ ((d.header.getD {}).code = some 200) := by
      rcases hc with h | h <;> rw [h] <;> simp
    simp only [process_fitcloud_response]
    rw [if_neg h200, if_pos hc]
    by_cases hp : startsWithStr api_path "/costs/ondemand/" = true
    · rw [if_pos hp]
      exact ⟨_, rfl, rfl, Or.inl rfl⟩
    · rw [if_neg hp]
      exact ⟨_, rfl, rfl, Or.inr rfl⟩
  · intro c hcv h200 h203 h204
    simp only [process_fitcloud_response]
    rw [if_neg (by rw [hcv]; simp [h200]), if_neg (by rw [hcv]; simp [h203, h204])]
    rw [hcv]
    rfl

/-- C8 witness: code 204 yields the empty cost-item success for a cost path,
and code 500 with message `"internal"` raises
`"FitCloud API error 500: internal"`. -/
theorem process_response_code_policy_witness :
    (∃ r, process_fitcloud_response
        (.jsonDict { header := some { code := some 204, message := "no data" } })
        "/costs/ondemand/corp/daily" = .ok r ∧
      r.success = true ∧ (r.cost_items = some [] ∨ r.data = some (.list []))) ∧
    process_fitcloud_response
        (.jsonDict { header := some { code := some 500, message := "internal" } })
        "/costs/ondemand/corp/daily" =
      .error "FitCloud API error 500: internal" := by
  constructor
  · exact (process_response_code_policy
      { header := some { code := some 204, message := "no data" } }
      "/costs/ondemand/corp/daily").1 (Or.inr rfl)
  · have h := (process_response_code_policy
      { header := some { code := some 500, message := "internal" } }
      "/costs/ondemand/corp/daily").2 500 rfl (by decide) (by decide) (by decide)
    rw [h]
    rfl

/-! ### CPython date arithmetic

`validate_date_logic` does real `date`/`timedelta` arithmetic; we embed
CPython's own ordinal conversions (`datetime._days_before_year`,
`_days_in_month`, `_ymd2ord`, `_ord2ymd`) and the `OverflowError` check of
`date.__add__` (result ordinal must stay within 1..`_MAXORDINAL`). -/

/-- CPython `_days_before_year`. -/
def days_before_year (y : Nat) : Nat :=
  (y - 1) * 365 + (y - 1) / 4 - (y - 1) / 100 + (y - 1) / 400

/-- CPython `_DAYS_BEFORE_MONTH[m]` (non-leap cumulative days). -/
def DAYS_BEFORE_MONTH (m : Nat) : Nat :=
  if m = 1 then 0 else if m = 2 then 31 else if m = 3 then 59 else if m = 4 then 90
  else if m = 5 then 120 else if m = 6 then 151 else if m = 7 then 181
  else if m = 8 then 212 else if m = 9 then 243 else if m = 10 then 273
  else if m = 11 then 304 else if m = 12 then 334 else 0

/-- CPython `_DAYS_IN_MONTH[m]` (non-leap). -/
def DAYS_IN_MONTH (m : Nat) : Nat :=
  if m = 2 then 28
  else if m = 4 ∨ m = 6 ∨ m = 9 ∨ m = 11 then 30
  else 31

/-- CPython `_days_before_month`. -/
def days_before_month (y m : Nat) : Nat :=
  DAYS_BEFORE_MONTH m + (if 2 < m ∧ isLeap y = true then 1 else 0)

/-- CPython `_ymd2ord` (`date.toordinal`): 0001-01-01 is ordinal 1. -/
def ymd2ord (y m d : Nat) : Nat := days_before_year y + days_before_month y m + d

/-- CPython `_MAXORDINAL = _ymd2ord(9999, 12, 31)`. -/
def maxOrdinal : Nat := ymd2ord 9999 12 31

/-- CPython `_ord2ymd` (`date.fromordinal`). -/
def ord2ymd (o : Nat) : Nat × Nat × Nat :=
  let n0 := o - 1
  let n400 := n0 / 146097
  let r400 := n0 % 146097
  let n100 := r400 / 36524
  let r100 := r400 % 36524
  let n4 := r100 / 1461
  let r4 := r100 % 1461
  let n1 := r4 / 365
  let n := r4 % 365
  let year := n400 * 400 + 1 + n100 * 100 + n4 * 4 + n1
  if n1 = 4 ∨ n100 = 4 then (year - 1, 12, 31)
  else
    let leapyear := n1 = 3 ∧ (n4 ≠ 24 ∨ n100 = 3)
    let month := (n + 50) / 32
    let preceding := DAYS_BEFORE_MONTH month + (if 2 < month ∧ leapyear then 1 else 0)
    if n < preceding then
      let month2 := month - 1
      let preceding2 :=
        preceding - (DAYS_IN_MONTH month2 + (if month2 = 2 ∧ leapyear then 1 else 0))
      (year, month2, n - preceding2 + 1)
    else
      (year, month, n - preceding + 1)

/-- A `datetime.date` value. -/
structure PyDate where
  year : Nat
  month : Nat
  day : Nat
deriving DecidableEq, Repr

/-- `date.toordinal()`. -/
def dateOrd (d : PyDate) : Nat := ymd2ord d.year d.month d.day

/-- `date.fromordinal(o)`. -/
def fromOrd (o : Nat) : PyDate := ⟨(ord2ymd o).1, (ord2ymd o).2.1, (ord2ymd o).2.2⟩

/-- Python exception kinds that escape `except ValueError`. -/
inductive PyErr where
  | overflow
deriving DecidableEq, Repr

/-- Result of a date computation that may raise `OverflowError`. -/
inductive DateOutcome where
  | ok (d : PyDate)
  | exn (e : PyErr)
deriving DecidableEq, Repr

/-- `date + timedelta(days=k)`: CPython raises `OverflowError` unless the
resulting ordinal stays within `0 < o ≤ _MAXORDINAL`. -/
def addDays (d : PyDate) (k : Int) : DateOutcome :=
  let o : Int := (dateOrd d : Int) + k
  if 1 ≤ o ∧ o ≤ (maxOrdinal : Int) then .ok (fromOrd o.toNat) else .exn .overflow

/-- `date` comparison `a < b` (tuple comparison on (year, month, day)). -/
def pyDateLt (a b : PyDate) : Bool :=
  decide (a.year < b.year ∨ (a.year = b.year ∧
    (a.month < b.month ∨ (a.month = b.month ∧ a.day < b.day))))

-- sanity checks against CPython values
example : ymd2ord 1 1 1 = 1 := by decide
example : maxOrdinal = 3652059 := by decide
example : ymd2ord 2025 6 15 = 739417 := by decide
example : fromOrd 739417 = ⟨2025, 6, 15⟩ := by decide
example : addDays ⟨2025, 6, 1⟩ 32 = .ok ⟨2025, 7, 3⟩ := by decide
example : addDays ⟨2024, 2, 1⟩ 32 = .ok ⟨2024, 3, 4⟩ := by decide
example : addDays ⟨9999, 12, 1⟩ 32 = .exn .overflow := by decide

/-! ### Date validation (`validate_date_logic`) -/

/-- The validator's warning messages, one constructor per `warnings.append`
message template of `fitcloudagent1_lambda.py` lines 108-269 (the `from`/`to`
and `beginDate`/`endDate` blocks share the identical ordering / future-date /
parse-error templates, hence shared constructors). -/
inductive DWarning where
  | missingParams (ps : List String)
  | accountIdFormat (v : String)
  | paramFormatYM (name v : String)
  | paramFormatYMD (name v : String)
  | billingFutureMonth (bp : String)
  | billingParse
  | fromToFormat
  | startAfterEnd
  | futureDaily (a b : String)
  | futureMonth (a b : String)
  | dateParse
  | tagFormat
deriving DecidableEq, Repr

/-- Outcome of `validate_date_logic`: a warning list, or an uncaught
exception. -/
inductive ValidateOutcome where
  | ok (ws : List DWarning)
  | exn (e : PyErr)
deriving DecidableEq, Repr

/-- Control flow of one validation block: continue, early `return warnings`,
or an uncaught exception. -/
inductive StepOut where
  | cont (ws : List DWarning)
  | stop (ws : List DWarning)
  | exn (e : PyErr)
deriving DecidableEq, Repr

/-- `params[name]` lookup for the parameter names the validator reads. -/
def getParam (p : Params) (name : String) : Option String :=
  if name = "from" then p.fromv
  else if name = "to" then p.tov
  else if name = "accountId" then p.accountId
  else if name = "billingPeriod" then p.billingPeriod
  else if name = "beginDate" then p.beginDate
  else if name = "endDate" then p.endDate
  else none

/-- The `api_requirements` table (`fitcloudagent1_lambda.py` lines 119-132);
`true` stands for the `'YYYYMM'` format, `false` for `'YYYYMMDD'`. -/
def apiReqs (path : String) : Option (List String × Bool) :=
  if path = "/costs/ondemand/corp/monthly" then some (["from", "to"], true)
  else if path = "/costs/ondemand/account/monthly" then some (["from", "to", "accountId"], true)
  else if path = "/costs/ondemand/corp/daily" then some (["from", "to"], false)
  else if path = "/costs/ondemand/account/daily" then some (["from", "to", "accountId"], false)
  else if path = "/invoice/corp/monthly" then some (["billingPeriod"], true)
  else if path = "/invoice/account/monthly" then some (["billingPeriod"], true)
  else if path = "/usage/ondemand/monthly" then some (["from", "to"], true)
  else if path = "/usage/ondemand/daily" then some (["from", "to"], false)
  else if path = "/usage/ondemand/tags" then some (["beginDate", "endDate"], false)
  else none

/-- `re.match(r'^[0-9]{12}$', v)`: twelve digits, a trailing newline being
tolerated by `$`. -/
def accountIdRe (v : String) : Bool :=
  (v.length = 12 && allDigits v) ||
  (v.length = 13 && allDigits (sTake v 12) && sDrop v 12 = "\n")

/-- The required-parameter / format block (`fitcloudagent1_lambda.py` lines
134-164): returns its warnings and whether it short-circuits (`return
warnings` on missing parameters). -/
def requiredWarnings (p : Params) (api_path : Option String) : List DWarning × Bool :=
  match api_path with
  | none => ([], false)
  | some path =>
    match apiReqs path with
    | none => ([], false)
    | some (req0, fmtYM) =>
      let req :=
        if (path = "/costs/ondemand/account/monthly" ∨ path = "/costs/ondemand/corp/monthly")
            ∧ p.billingPeriod.isSome then
          req0.filter (fun q => ¬ (q = "from" ∨ q = "to"))
        else req0
      let missing := req.filter (fun q =>
        match getParam p q with
        | none => true
        | some v => isBlank v)
      if missing ≠ [] then ([.missingParams missing], true)
      else
        (req.filterMap (fun q =>
          let v := (getParam p q).getD ""
          if q = "accountId" then
            (if accountIdRe v then none else some (.accountIdFormat v))
          else if fmtYM then
            (if v.length = 6 ∧ allDigits v = true then none else some (.paramFormatYM q v))
          else
            (if v.length = 8 ∧ allDigits v = true then none else some (.paramFormatYMD q v))),
         false)

/-- The `billingPeriod` block (`fitcloudagent1_lambda.py` lines 166-184).
The `int(...)` calls are modelled on digit strings (`digitsOnlyNat`); a slice
that `int` still accepts (sign/whitespace) has value at most 999 and is
indistinguishable from the parse-error outcome in every claim here. -/
def billingWarnings (clock : Clock) (p : Params) : List DWarning :=
  match p.billingPeriod with
  | none => []
  | some bp =>
    if bp.length = 6 then
      match digitsOnlyNat (sTake bp 4), digitsOnlyNat (sDrop bp 4) with
      | some y, some m =>
        if y > clock.year ∨ (y = clock.year ∧ m > clock.month) then
          [.billingFutureMonth bp]
        else []
      | _, _ => [.billingParse]
    else []

/-- `datetime.strptime(s, '%Y%m%d').date()` on a string `validYMD`-accepts. -/
def parseYMD (s : String) : PyDate :=
  ⟨digitsToNat (s.data.take 4), digitsToNat ((s.data.drop 4).take 2),
   digitsToNat (s.data.drop 6)⟩

/-- The `from`/`to` block (`fitcloudagent1_lambda.py` lines 186-240), for
present `from` and `to` values. -/
def fromToStep (clock : Clock) (cur : PyDate) (f t : String) : StepOut :=
  if f.length = 8 ∧ t.length = 8 then
    (if validYMD f = true ∧ validYMD t = true then
      let fd := parseYMD f
      let td := parseYMD t
      .cont ((if pyDateLt td fd then [DWarning.startAfterEnd] else []) ++
             (if pyDateLt cur fd ∨ pyDateLt cur td then [DWarning.futureDaily f t] else []))
     else .cont [DWarning.dateParse])
  else if f.length = 6 ∧ t.length = 6 then
    (if validYMD (f ++ "01") = true then
      (if validYMD (t ++ "01") = true then
        match addDays (parseYMD (t ++ "01")) 32 with
        | .exn e => .exn e
        | .ok nm =>
          match addDays ⟨nm.year, nm.month, 1⟩ (-1) with
          | .exn e => .exn e
          | .ok lastD =>
            let f01 := parseYMD (f ++ "01")
            let fy := digitsToNat (f.data.take 4)
            let fm := digitsToNat (f.data.drop 4)
            let ty := digitsToNat (t.data.take 4)
            let tm := digitsToNat (t.data.drop 4)
            .cont ((if pyDateLt lastD f01 then [DWarning.startAfterEnd] else []) ++
                   (if (fy > clock.year ∨ (fy = clock.year ∧ fm > clock.month)) ∨
                       (ty > clock.year ∨ (ty = clock.year ∧ tm > clock.month)) then
                      [DWarning.futureMonth f t]
                    else []))
       else .cont [DWarning.dateParse])
     else .cont [DWarning.dateParse])
  else .stop [DWarning.fromToFormat]

/-- The `beginDate`/`endDate` block (`fitcloudagent1_lambda.py` lines
242-264). -/
def beginEndStep (cur : PyDate) (p : Params) : StepOut :=
  match p.beginDate, p.endDate with
  | some b, some e =>
    if b.length = 8 ∧ e.length = 8 then
      (if validYMD b = true ∧ validYMD e = true then
        let bd := parseYMD b
        let ed := parseYMD e
        .cont ((if pyDateLt ed bd then [DWarning.startAfterEnd] else []) ++
               (if pyDateLt cur bd ∨ pyDateLt cur ed then [DWarning.futureDaily b e] else []))
       else .cont [DWarning.dateParse])
    else .stop [DWarning.tagFormat]
  | _, _ => .cont []

/-- `validate_date_logic` (`fitcloudagent1_lambda.py` lines 108-269). -/
def validate_date_logic (clock : Clock) (p : Params) (api_path : Option String) :
    ValidateOutcome :=
  let cur : PyDate := ⟨clock.year, clock.month, clock.day⟩
  match requiredWarnings p api_path with
  | (ws, true) => .ok ws
  | (ws1, false) =>
    let ws2 := ws1 ++ billingWarnings clock p
    match (match p.fromv, p.tov with
           | some f, some t => fromToStep clock cur f t
           | _, _ => StepOut.cont []) with
    | .exn e => .exn e
    | .stop ws3 => .ok (ws2 ++ ws3)
    | .cont ws3 =>
      match beginEndStep cur p with
      | .exn e => .exn e
      | .stop ws4 => .ok (ws2 ++ ws3 ++ ws4)
      | .cont ws4 => .ok (ws2 ++ ws3 ++ ws4)

-- sanity checks: ordinary monthly ranges validate as the spec describes
example : validate_date_logic ⟨2025, 6, 15⟩
    { fromv := some "202505", tov := some "202506" } none = .ok [] := by decide
example : validate_date_logic ⟨2025, 6, 15⟩
    { fromv := some "202507", tov := some "202507" } none =
    .ok [.futureMonth "202507" "202507"] := by decide
example : validate_date_logic ⟨2025, 6, 15⟩
    { fromv := some "202506", tov := some "202505" } none = .ok [.startAfterEnd] := by decide

/-- C6 (code bug): the future-month comparison itself is on (year, month)
pairs and the current month never warns, but for `to = "999912"` — a
well-formed month strictly later than the clock — the month-end computation
`strptime(to+'01') + timedelta(days=32)` overflows `datetime.date`, and the
`OverflowError` is not caught by `except ValueError`: the validator raises
instead of returning the future-month warning.  The same call with the
clock's own month returns no warning, and one month later returns exactly the
future-month warning. -/
theorem validate_future_month_overflow :
    validate_date_logic ⟨2025, 6, 15⟩
        { fromv := some "202501", tov := some "999912" } none = .exn .overflow ∧
    validate_date_logic ⟨2025, 6, 15⟩
        { fromv := some "202506", tov := some "202506" } none = .ok [] ∧
    validate_date_logic ⟨2025, 6, 15⟩
        { fromv := some "202506", tov := some "202507" } none =
      .ok [.futureMonth "202506" "202507"] ∧
    validate_date_logic ⟨2025, 6, 15⟩
        { fromv := some "202501", tov := some "999912" }
        (some "/costs/ondemand/corp/monthly") = .exn .overflow := by
  refine ⟨by decide, by decide, by decide, by decide⟩

/-! ### Supervisor report flow (`fitcloudSuperVisor.py`) -/

/-- Outcome of invoking an agent lambda and extracting its text: the
extracted text, or the exception message of a `lambda_client.invoke` /
payload-processing failure. -/
inductive CallOutcome where
  | ok (s : String)
  | raised (e : String)
deriving DecidableEq, Repr

/-- The single-text-content envelope every supervisor return site builds:
`{'response': {'body': {'content': [{'type': 'text', 'text': ...}]}}}`. -/
structure SupEnvelope where
  text : String
deriving DecidableEq, Repr

/-- Occurrence of `needle` as a contiguous substring of `hay`. -/
def occursIn (needle hay : List Char) : Bool :=
  match hay with
  | [] => needle.isEmpty
  | _ :: rest => needle.isPrefixOf hay || occursIn needle rest

/-- The report branch of the supervisor's `lambda_handler`
(`fitcloudSuperVisor.py` lines 68-223) after the Agent1 invocation:
`agent1_text` is the markdown extracted from Agent1's (cost-query) response,
`agent2` the outcome of the Agent2 (report) invocation.  On an Agent2
exception the handler returns only the error message; an empty Agent2 answer
is replaced by a fixed notice; otherwise Agent2's text is returned. -/
def supervisor_report_branch (agent1_text : String) (agent2 : CallOutcome) : SupEnvelope :=
  if isBlank agent1_text then
    ⟨"❌ Agent1에서 데이터를 조회할 수 없습니다. 잠시 후 다시 시도해주세요."⟩
  else
    match agent2 with
    | .raised e => ⟨"❌ Agent2 호출 중 오류가 발생했습니다: " ++ e⟩
    | .ok r =>
      if r = "" then ⟨"[Supervisor] Agent2로부터 유효한 응답을 받지 못했습니다."⟩
      else ⟨r⟩

/-- C10 (code bug): when Agent1 has produced a non-empty cost-query result
and the Agent2 (report) invocation raises, the supervisor's envelope carries
only the Agent2 error message — the already-obtained cost-query text does not
occur anywhere in the returned envelope, contradicting the requirement to
surface the cost data together with a separate failure note. -/
theorem supervisor_report_failure_discards :
    supervisor_report_branch "2025년 05월 온디맨드 사용금액 상위 10개 서비스 표"
        (.raised "Task timed out after 60.00 seconds") =
      ⟨"❌ Agent2 호출 중 오류가 발생했습니다: Task timed out after 60.00 seconds"⟩ ∧
    occursIn ("2025년 05월 온디맨드 사용금액 상위 10개 서비스 표" : String).data
        ("❌ Agent2 호출 중 오류가 발생했습니다: Task timed out after 60.00 seconds" : String).data
      = false := by
  refine ⟨by decide, by decide⟩
